import Mathlib

/-!
# robot-explorer.model.js: a shallow embedding

The script `www/robot-explorer.model.js` builds a tree of `XMAP` / `XNODE` /
`XWALL` / `XPOINT` objects from an XML element and draws it on a canvas 2D
context.  This file embeds

* the JavaScript Number values the script computes with (`JSNum`),
* the part of the DOM it reads (`Element`, `getAttribute`,
  `getElementsByTagName`),
* the attribute readers, the four constructors and `robot2canvas`,
* the drawing routines, as state transformers over the script's implicit
  global variables and the sequence of calls received by the context,

and proves properties of them.

Conventions.

* `new F(args)` is `F.new args`; a method `o.m(args)` is `T.m o args`.
* A call that can throw returns `Except Abrupt _`.
* The back-references `this.map` / `this.node` are only used to reach the
  owning map's `robot2canvas`; the drawing routines receive that map as an
  explicit argument instead.
* `SCALE` is a global the script only reads; it is an explicit argument.
-/

namespace RobotExplorer

/-! ## JavaScript Numbers -/

/-- A JavaScript Number (IEEE-754 binary64).  A finite value is represented by
the rational number it denotes; `-0` is identified with `+0` (the script never
divides by a computed value, so the two are indistinguishable to it). -/
inductive JSNum where
  | nan
  | inf (negative : Bool)
  | fin (q : ℚ)
  deriving DecidableEq

namespace JSNum

/-- The integer nearest to `n / d`, ties to the even one (`d > 0`). -/
def roundHalfEven (n d : Nat) : Nat :=
  let k := n / d
  let r := n % d
  if 2 * r < d then k else if d < 2 * r then k + 1 else if k % 2 = 0 then k else k + 1

/-- Halve `n` until it is below 2, at most `fuel` times; the number of
halvings. -/
def log2Aux : Nat → Nat → Nat
  | 0, _ => 0
  | fuel + 1, n => if n < 2 then 0 else log2Aux fuel (n / 2) + 1

/-- The position of the leading bit of `n > 0`: `2 ^ log2 n ≤ n < 2 ^ (log2 n + 1)`. -/
def log2 (n : Nat) : Nat := log2Aux n n

/-- The integer `e` with `2 ^ e ≤ n / d < 2 ^ (e + 1)` (`n, d > 0`). -/
def floorLog2 (n d : Nat) : Int :=
  let e : Int := (log2 n : Int) - (log2 d : Int)
  if (if 0 ≤ e then d * 2 ^ e.toNat ≤ n else d ≤ n * 2 ^ (-e).toNat) then e else e - 1

/-- The binary64 value nearest to the rational `q` (round to nearest, ties to
even; gradual underflow below `2 ^ -1022`; overflow to an infinity). -/
def ofRat (q : ℚ) : JSNum :=
  if q = 0 then fin 0
  else
    let n := q.num.natAbs
    let e := max (floorLog2 n q.den) (-1022)
    let s := e - 52
    let m :=
      if 0 ≤ s then roundHalfEven n (q.den * 2 ^ s.toNat)
      else roundHalfEven (n * 2 ^ (-s).toNat) q.den
    if 1024 ≤ e ∨ (e = 1023 ∧ m = 2 ^ 53) then inf (decide (q < 0))
    else
      let v : ℚ := if 0 ≤ s then (m : ℚ) * 2 ^ s.toNat else mkRat m (2 ^ (-s).toNat)
      fin (if q < 0 then -v else v)

/-- Unary `-`. -/
def neg : JSNum → JSNum
  | nan => nan
  | inf s => inf (!s)
  | fin q => fin (-q)

/-- Binary `+`. -/
def add : JSNum → JSNum → JSNum
  | nan, _ => nan
  | _, nan => nan
  | inf s, inf t => if s = t then inf s else nan
  | inf s, fin _ => inf s
  | fin _, inf t => inf t
  | fin a, fin b => ofRat (a + b)

/-- Binary `-`. -/
def sub (a b : JSNum) : JSNum := add a (neg b)

/-- Binary `*`. -/
def mul : JSNum → JSNum → JSNum
  | nan, _ => nan
  | _, nan => nan
  | inf s, inf t => inf (xor s t)
  | inf s, fin b => if b = 0 then nan else inf (xor s (decide (b < 0)))
  | fin a, inf t => if a = 0 then nan else inf (xor (decide (a < 0)) t)
  | fin a, fin b => ofRat (a * b)

/-- Binary `/`.  (A zero divisor is taken to be `+0`; the script only divides
by the literal `180.0`.) -/
def div : JSNum → JSNum → JSNum
  | nan, _ => nan
  | _, nan => nan
  | inf _, inf _ => nan
  | inf s, fin b => inf (xor s (decide (b < 0)))
  | fin _, inf _ => fin 0
  | fin a, fin b =>
    if b = 0 then (if a = 0 then nan else inf (decide (a < 0))) else ofRat (a / b)

end JSNum

/-- `Math.round`: the nearest integer, ties towards `+∞`. -/
def Math.round : JSNum → JSNum
  | .nan => .nan
  | .inf s => .inf s
  | .fin q => .fin (⌊q + 1 / 2⌋ : Int)

/-- `Math.PI`: the binary64 value nearest to π, `0x400921FB54442D18`. -/
def Math.PI : JSNum := .fin (884279719003555 / 281474976710656)

/-- The part of `Math` that ECMAScript leaves to the engine
("implementation-approximated"): `sin` and `cos` of a finite non-zero
argument. -/
structure MathImpl where
  sin : ℚ → JSNum
  cos : ℚ → JSNum

/-- `Math.sin`; the results at NaN, the infinities and zero are fixed by
ECMAScript. -/
def Math.sin (M : MathImpl) : JSNum → JSNum
  | .nan => .nan
  | .inf _ => .nan
  | .fin q => if q = 0 then .fin 0 else M.sin q

/-- `Math.cos`; the results at NaN, the infinities and zero are fixed by
ECMAScript. -/
def Math.cos (M : MathImpl) : JSNum → JSNum
  | .nan => .nan
  | .inf _ => .nan
  | .fin q => if q = 0 then .fin 1 else M.cos q

/-! ## Strings to Numbers: `parseFloat` and `parseInt` -/

/-- The code points `TrimString` removes: ECMAScript `WhiteSpace` and
`LineTerminator`. -/
def isStrWhiteSpaceChar (c : Char) : Bool :=
  c.toNat ∈ [0x09, 0x0A, 0x0B, 0x0C, 0x0D, 0x20, 0xA0, 0x1680, 0x2028, 0x2029,
    0x202F, 0x205F, 0x3000, 0xFEFF] || (0x2000 ≤ c.toNat && c.toNat ≤ 0x200A)

/-- `TrimString(s, start)`. -/
def trimStart (s : List Char) : List Char := s.dropWhile isStrWhiteSpaceChar

/-- An optional leading sign: whether it is `-`, and the rest. -/
def splitSign : List Char → Bool × List Char
  | '-' :: r => (true, r)
  | '+' :: r => (false, r)
  | cs => (false, cs)

/-- The value of a digit in radix 10 or 16. -/
def digitValue (radix : Nat) (c : Char) : Option Nat :=
  if c.isDigit then some (c.toNat - '0'.toNat)
  else if radix = 16 ∧ 'a' ≤ c ∧ c ≤ 'f' then some (c.toNat - 'a'.toNat + 10)
  else if radix = 16 ∧ 'A' ≤ c ∧ c ≤ 'F' then some (c.toNat - 'A'.toNat + 10)
  else none

/-- The mathematical value of a digit string. -/
def digitsValue (radix : Nat) (ds : List Char) : Nat :=
  ds.foldl (fun n c => radix * n + (digitValue radix c).getD 0) 0

/-- The `ExponentPart` at the head of `cs`, when there is a complete one
(`e` or `E`, an optional sign, at least one digit); `0` otherwise. -/
def exponentPart : List Char → Int
  | c :: r =>
    if c = 'e' ∨ c = 'E' then
      let (negative, d) := splitSign r
      let ds := d.takeWhile Char.isDigit
      if ds = [] then 0
      else if negative then -(digitsValue 10 ds : Int) else (digitsValue 10 ds : Int)
    else 0
  | [] => 0

/-- A finite rational with the given sign, as a Number. -/
def signed (negative : Bool) (v : ℚ) : JSNum :=
  JSNum.ofRat (if negative then -v else v)

/-- `parseFloat(s)`: the value of the longest prefix of the trimmed string
that is a `StrDecimalLiteral`; NaN when there is none. -/
def parseFloat (s : String) : JSNum :=
  let (negative, u) := splitSign (trimStart s.data)
  if "Infinity".data.isPrefixOf u then .inf negative
  else
    let ip := u.takeWhile Char.isDigit
    let r1 := u.dropWhile Char.isDigit
    let fp := match r1 with
      | '.' :: r => r.takeWhile Char.isDigit
      | _ => []
    let r2 := match r1 with
      | '.' :: r => r.dropWhile Char.isDigit
      | _ => r1
    if ip = [] ∧ fp = [] then .nan
    else
      signed negative
        ((digitsValue 10 (ip ++ fp) : ℚ) * (10 : ℚ) ^ (exponentPart r2 - (fp.length : Int)))

/-- `parseInt(s)` with no radix argument: radix 16 after a `0x` / `0X`,
radix 10 otherwise; NaN when no digit follows the optional sign. -/
def parseInt (s : String) : JSNum :=
  let (negative, u) := splitSign (trimStart s.data)
  let hex := "0x".data.isPrefixOf u || "0X".data.isPrefixOf u
  let radix : Nat := if hex then 16 else 10
  let z := if hex then u.drop 2 else u
  let ds := z.takeWhile (fun c => (digitValue radix c).isSome)
  if ds = [] then .nan else signed negative (digitsValue radix ds : ℚ)

/-! ## The DOM the script reads -/

/-- An XML element: its tag name, its attributes in document order and its
child elements in document order (other kinds of node are never looked at). -/
inductive Element where
  | mk (tagName : String) (attributes : List (String × String)) (children : List Element)

namespace Element

/-- The `tagName` property. -/
def tagName : Element → String
  | mk t _ _ => t

/-- The attribute list. -/
def attributes : Element → List (String × String)
  | mk _ a _ => a

/-- The child elements. -/
def children : Element → List Element
  | mk _ _ c => c

mutual
/-- All elements below `el` (children, grandchildren, ...), in document order. -/
def descendants : Element → List Element
  | mk _ _ cs => descendantsOfList cs
/-- The elements of `cs` and everything below them, in document order. -/
def descendantsOfList : List Element → List Element
  | [] => []
  | c :: cs => c :: (descendants c ++ descendantsOfList cs)
end

/-- `el.getAttribute(name)`: the value of the attribute, `null` (`none`) when
the element has no such attribute. -/
def getAttribute (el : Element) (name : String) : Option String :=
  (el.attributes.find? (fun a => a.1 == name)).map Prod.snd

/-- `el.getElementsByTagName(name)`: every descendant element with that tag
name (every descendant for `"*"`), in document order. -/
def getElementsByTagName (el : Element) (name : String) : List Element :=
  el.descendants.filter (fun d => name == "*" || d.tagName == name)

end Element

/-- How a call ends when it does not return: a thrown `TypeError` or
`ReferenceError`.  `outOfFuel` is not JavaScript: it marks a loop of the
embedding that was not given enough iterations. -/
inductive Abrupt where
  | typeError
  | referenceError
  | outOfFuel
  deriving DecidableEq

deriving instance DecidableEq for Except

/-! ## Attribute readers (source lines 129-152)

The element argument is an `Option`: `none` is `undefined`, which `XWALL`
passes on when `getElementsByTagName(...)[0]` finds nothing; calling
`getAttribute` on it throws a `TypeError`. -/

/-- `getFloatAttribute(el, name)`. -/
def getFloatAttribute (el : Option Element) (name : String) : Except Abrupt JSNum :=
  match el with
  | none => .error .typeError
  | some el =>
    let attrValue := el.getAttribute name
    .ok (match attrValue with
      | none => .fin 0
      | some v => parseFloat v)

/-- `getIntAttribute(el, name)`. -/
def getIntAttribute (el : Option Element) (name : String) : Except Abrupt JSNum :=
  match el with
  | none => .error .typeError
  | some el =>
    let attrValue := el.getAttribute name
    .ok (match attrValue with
      | none => .fin 0
      | some v => parseInt v)

/-- `getBooleanAttribute(el, name)`. -/
def getBooleanAttribute (el : Option Element) (name : String) : Except Abrupt Bool :=
  match el with
  | none => .error .typeError
  | some el =>
    let attrValue := el.getAttribute name
    .ok (attrValue == some "true" || attrValue == some "True" || attrValue == some "TRUE"
      || attrValue == some "1")

/-! ## The object tree and its constructors (source lines 18-122, 160-187) -/

/-- A `POINT`: canvas coordinates. -/
structure POINT where
  x : JSNum
  y : JSNum
  deriving DecidableEq

/-- The data of an `XPOINT` object. -/
structure XPOINT where
  x : JSNum
  y : JSNum
  isValid : Bool
  deriving DecidableEq

/-- The data of an `XWALL` object. -/
structure XWALL where
  pt1 : XPOINT
  pt2 : XPOINT
  deriving DecidableEq

/-- The data of an `XNODE` object. -/
structure XNODE where
  x : JSNum
  y : JSNum
  orientation : JSNum
  points : List XPOINT
  walls : List XWALL
  deriving DecidableEq

/-- The data of an `XMAP` object. -/
structure XMAP where
  minX : JSNum
  maxX : JSNum
  minY : JSNum
  maxY : JSNum
  nodes : List XNODE
  deriving DecidableEq

/-- `new XPOINT(elPoint, node)`. -/
def XPOINT.new (elPoint : Option Element) : Except Abrupt XPOINT := do
  let x ← getFloatAttribute elPoint "x"
  let y ← getFloatAttribute elPoint "y"
  let isValid ← getBooleanAttribute elPoint "valid"
  pure { x := x, y := y, isValid := isValid }

/-- `new XWALL(elWall, node)`. -/
def XWALL.new (elWall : Element) : Except Abrupt XWALL := do
  let elPt1 := (elWall.getElementsByTagName "Pt1")[0]?
  let elPt2 := (elWall.getElementsByTagName "Pt2")[0]?
  let pt1 ← XPOINT.new elPt1
  let pt2 ← XPOINT.new elPt2
  pure { pt1 := pt1, pt2 := pt2 }

/-- The loop of `getArrayContent`: `content[j] = new ctor(childs[j], parent)` for
`j = 0, 1, ...`; the counter `j` is a local `var`, out of reach of `ctor`. -/
def getArrayContent.fill {α : Type} (ctor : Element → Except Abrupt α) :
    List Element → Except Abrupt (List α)
  | [] => pure []
  | c :: cs => do
    let x ← ctor c
    let xs ← getArrayContent.fill ctor cs
    pure (x :: xs)

/-- `getArrayContent(el, name, ctor, parent)`. -/
def getArrayContent {α : Type} (el : Element) (name : String)
    (ctor : Element → Except Abrupt α) : Except Abrupt (List α) :=
  getArrayContent.fill ctor (el.getElementsByTagName name)

/-- `new XNODE(elNode, map)`. -/
def XNODE.new (elNode : Element) : Except Abrupt XNODE := do
  let x ← getFloatAttribute (some elNode) "x"
  let y ← getFloatAttribute (some elNode) "y"
  let degrees ← getFloatAttribute (some elNode) "orientation"
  let orientation := (degrees.mul Math.PI).div (.fin 180)
  let points ← getArrayContent elNode "point" (fun el => XPOINT.new (some el))
  let walls ← getArrayContent elNode "wall" XWALL.new
  pure { x := x, y := y, orientation := orientation, points := points, walls := walls }

/-- `new XMAP(elMap)`. -/
def XMAP.new (elMap : Element) : Except Abrupt XMAP := do
  let minX ← getFloatAttribute (some elMap) "minX"
  let maxX ← getFloatAttribute (some elMap) "maxX"
  let minY ← getFloatAttribute (some elMap) "minY"
  let maxY ← getFloatAttribute (some elMap) "maxY"
  let nodes ← getArrayContent elMap "node" XNODE.new
  pure { minX := minX, maxX := maxX, minY := minY, maxY := maxY, nodes := nodes }

/-- `this.robot2canvas(xPoint)` of an `XMAP`; `x`, `y` are `xPoint.x`,
`xPoint.y`. -/
def XMAP.robot2canvas (this : XMAP) (SCALE : JSNum) (x y : JSNum) : POINT :=
  { x := Math.round ((x.sub this.minX).mul SCALE)
    y := Math.round ((this.maxY.sub y).mul SCALE) }

/-! ## Drawing (source lines 24-28, 56-70, 84-91, 110-121, 189-235)

The drawing routines assign to variables they never declare (`iNode`, `iPoint`,
`iWall`, `k`, `pt`, `ipt`, `p1`, `p2`, `sin`, `cos`, `rotArrow`); in a classic
script these are properties of the global object, shared by every call.  They
are kept in `Globals`; reading an unbound one throws a `ReferenceError`.  The
canvas context is represented by the sequence of calls and property
assignments it has received. -/

/-- One method call or property assignment on the canvas 2D context. -/
inductive Cmd where
  | save
  | restore
  | beginPath
  | fill
  | stroke
  | fillStyle (color : String)
  | strokeStyle (color : String)
  | lineWidth (width : JSNum)
  | arc (x y radius startAngle endAngle : JSNum)
  | moveTo (x y : JSNum)
  | lineTo (x y : JSNum)
  deriving DecidableEq

/-- The implicit globals of the drawing routines; `none` is "not bound".
Arrays are lists whose entries may be holes (`none`).  Loop counters are
natural numbers. -/
structure Globals where
  iNode : Option Nat
  iPoint : Option Nat
  iWall : Option Nat
  k : Option Nat
  pt : Option (List (Option JSNum))
  ipt : Option POINT
  p1 : Option POINT
  p2 : Option POINT
  sin : Option JSNum
  cos : Option JSNum
  rotArrow : Option (List (Option (List (Option JSNum))))
  deriving DecidableEq

/-- No global bound yet: the state before the first drawing pass. -/
def Globals.unbound : Globals :=
  { iNode := none, iPoint := none, iWall := none, k := none, pt := none, ipt := none,
    p1 := none, p2 := none, sin := none, cos := none, rotArrow := none }

/-- What a drawing routine can change: the globals and the context. -/
structure DrawState where
  globals : Globals
  context : List Cmd
  deriving DecidableEq

/-- The context receives the calls `cs`, in order. -/
def DrawState.call (s : DrawState) (cs : List Cmd) : DrawState :=
  { s with context := s.context ++ cs }

/-- Reading a global variable. -/
def readGlobal {α : Type} : Option α → Except Abrupt α
  | some a => .ok a
  | none => .error .referenceError

/-- Using a value as an object (to index it or call a method on it):
`undefined` throws a `TypeError`. -/
def toObject {α : Type} : Option α → Except Abrupt α
  | some a => .ok a
  | none => .error .typeError

/-- Using a value as an operand of `+`, `-`, `*`: `undefined` is NaN. -/
def toNumber : Option JSNum → JSNum
  | some x => x
  | none => .nan

/-- `a[i] = v` on an array with holes: a write past the end extends it. -/
def arraySet {α : Type} (a : List (Option α)) (i : Nat) (v : α) : List (Option α) :=
  if i < a.length then a.set i (some v)
  else a ++ List.replicate (i - a.length) none ++ [some v]

/-- The loop `for (...; c < n; c++) body` over a global counter `c`, after its
initialisation; `get` and `set` read and write `c`.  The body runs on the
shared state and is free to change `c`, so the loop is bounded by `fuel`. -/
def forGlobal (get : Globals → Option Nat) (set : Globals → Nat → Globals) (n : Nat)
    (body : DrawState → Except Abrupt DrawState) : Nat → DrawState → Except Abrupt DrawState
  | 0, _ => .error .outOfFuel
  | fuel + 1, s => do
    let c ← readGlobal (get s.globals)
    if c < n then
      let s ← body s
      let c ← readGlobal (get s.globals)
      forGlobal get set n body fuel { s with globals := set s.globals (c + 1) }
    else
      pure s

/-- `drawCircle(context, x0, y0, R, fgColor, bgColor)`; `bgColor` may be `null`. -/
def drawCircle (x0 y0 R : JSNum) (fgColor : String) (bgColor : Option String)
    (s : DrawState) : Except Abrupt DrawState :=
  let s := match bgColor with
    | some bg =>
      s.call [.fillStyle bg, .beginPath, .arc x0 y0 R (.fin 0) ((JSNum.fin 2).mul Math.PI), .fill]
    | none => s
  pure (s.call [.strokeStyle fgColor, .beginPath,
    .arc x0 y0 R (.fin 0) ((JSNum.fin 2).mul Math.PI), .stroke])

/-- `drawLine(context, x1, y1, x2, y2, fgColor)`. -/
def drawLine (x1 y1 x2 y2 : JSNum) (fgColor : String) (s : DrawState) :
    Except Abrupt DrawState :=
  pure (s.call [.strokeStyle fgColor, .beginPath, .moveTo x1 y1, .lineTo x2 y2, .stroke])

/-- The global `ARROW`, assigned once when the script loads. -/
def ARROW : List (List JSNum) :=
  [[.fin 0, .fin (-3)], [.fin 0, .fin 4], [.fin (-1), .fin 2], [.fin 1, .fin 2]]

/-- The body of the `for (k ...)` loop of `drawArrow`. -/
def drawArrow.body (R : JSNum) (s : DrawState) : Except Abrupt DrawState := do
  -- pt = new Array(2);
  let s := { s with globals := { s.globals with pt := some [none, none] } }
  -- pt[0] = ARROW[k][0] * R * cos + ARROW[k][1] * R * sin;
  let pt ← readGlobal s.globals.pt
  let k ← readGlobal s.globals.k
  let a0 ← toObject ARROW[k]?
  let cos ← readGlobal s.globals.cos
  let k ← readGlobal s.globals.k
  let a1 ← toObject ARROW[k]?
  let sin ← readGlobal s.globals.sin
  let v0 := (((toNumber a0[0]?).mul R).mul cos).add (((toNumber a1[1]?).mul R).mul sin)
  let s := { s with globals := { s.globals with pt := some (arraySet pt 0 v0) } }
  -- pt[1] = -ARROW[k][0] * R * sin + ARROW[k][1] * R * cos;
  let pt ← readGlobal s.globals.pt
  let k ← readGlobal s.globals.k
  let a0 ← toObject ARROW[k]?
  let sin ← readGlobal s.globals.sin
  let k ← readGlobal s.globals.k
  let a1 ← toObject ARROW[k]?
  let cos ← readGlobal s.globals.cos
  let v1 := (((toNumber a0[0]?).neg.mul R).mul sin).add (((toNumber a1[1]?).mul R).mul cos)
  let s := { s with globals := { s.globals with pt := some (arraySet pt 1 v1) } }
  -- rotArrow[k] = pt;
  let rotArrow ← readGlobal s.globals.rotArrow
  let k ← readGlobal s.globals.k
  let pt ← readGlobal s.globals.pt
  pure { s with globals := { s.globals with rotArrow := some (arraySet rotArrow k pt) } }

/-- `rotArrow[i][j]` as an operand. -/
def rotArrowAt (s : DrawState) (i j : Nat) : Except Abrupt JSNum := do
  let rotArrow ← readGlobal s.globals.rotArrow
  let row ← toObject rotArrow[i]?.join
  pure (toNumber row[j]?.join)

/-- `drawArrow(context, x0, y0, R, orientation, fgColor)`. -/
def drawArrow (M : MathImpl) (x0 y0 R orientation : JSNum) (fgColor : String) (fuel : Nat)
    (s : DrawState) : Except Abrupt DrawState := do
  let s := s.call [.save, .strokeStyle fgColor, .lineWidth (.fin 2)]
  let s := { s with globals := { s.globals with
    rotArrow := some (List.replicate ARROW.length none) } }
  let s := { s with globals := { s.globals with sin := some (Math.sin M orientation) } }
  let s := { s with globals := { s.globals with cos := some (Math.cos M orientation) } }
  let s := { s with globals := { s.globals with k := some 0 } }
  let s ← forGlobal (fun g => g.k) (fun g v => { g with k := some v }) ARROW.length
    (drawArrow.body R) fuel s
  let s := s.call [.strokeStyle fgColor, .beginPath]
  let s := s.call [.moveTo (x0.add (← rotArrowAt s 0 0)) (y0.sub (← rotArrowAt s 0 1))]
  let s := s.call [.lineTo (x0.add (← rotArrowAt s 1 0)) (y0.sub (← rotArrowAt s 1 1))]
  let s := s.call [.moveTo (x0.add (← rotArrowAt s 2 0)) (y0.sub (← rotArrowAt s 2 1))]
  let s := s.call [.lineTo (x0.add (← rotArrowAt s 1 0)) (y0.sub (← rotArrowAt s 1 1))]
  let s := s.call [.moveTo (x0.add (← rotArrowAt s 3 0)) (y0.sub (← rotArrowAt s 3 1))]
  let s := s.call [.lineTo (x0.add (← rotArrowAt s 1 0)) (y0.sub (← rotArrowAt s 1 1))]
  pure (s.call [.stroke, .restore])

/-- `this.draw(context)` of an `XPOINT` whose `this.map` is `map`. -/
def XPOINT.draw (map : XMAP) (SCALE : JSNum) (this : XPOINT) (s : DrawState) :
    Except Abrupt DrawState :=
  let pt := map.robot2canvas SCALE this.x this.y
  let s := s.call [.fillStyle "#5050FF", .strokeStyle "#5050FF", .beginPath,
    .arc pt.x pt.y (.fin 5) (.fin 0) ((JSNum.fin 2).mul Math.PI)]
  if this.isValid then pure (s.call [.fill]) else pure (s.call [.stroke])

/-- `this.draw(context)` of an `XWALL` whose `this.map` is `map`. -/
def XWALL.draw (map : XMAP) (SCALE : JSNum) (this : XWALL) (s : DrawState) :
    Except Abrupt DrawState := do
  let s := { s with globals := { s.globals with
    p1 := some (map.robot2canvas SCALE this.pt1.x this.pt1.y) } }
  let s := { s with globals := { s.globals with
    p2 := some (map.robot2canvas SCALE this.pt2.x this.pt2.y) } }
  let s := s.call [.save, .lineWidth (.fin 4)]
  let p1 ← readGlobal s.globals.p1
  let p2 ← readGlobal s.globals.p2
  let s ← drawLine p1.x p1.y p2.x p2.y "#00007F" s
  pure (s.call [.restore])

/-- The body of the `for (iPoint ...)` loop of `XNODE.draw`; `pt` is the local
variable of that name. -/
def XNODE.draw.pointBody (map : XMAP) (SCALE : JSNum) (this : XNODE) (pt : POINT)
    (s : DrawState) : Except Abrupt DrawState := do
  -- ipt = this.map.robot2canvas(this.points[iPoint]);
  let iPoint ← readGlobal s.globals.iPoint
  let point ← toObject this.points[iPoint]?
  let s := { s with globals := { s.globals with
    ipt := some (map.robot2canvas SCALE point.x point.y) } }
  -- drawLine(context, pt.x, pt.y, ipt.x, ipt.y, "#CFCFFF");
  let ipt ← readGlobal s.globals.ipt
  let s ← drawLine pt.x pt.y ipt.x ipt.y "#CFCFFF" s
  -- this.points[iPoint].draw(context);
  let iPoint ← readGlobal s.globals.iPoint
  let point ← toObject this.points[iPoint]?
  point.draw map SCALE s

/-- The body of the `for (iWall ...)` loop of `XNODE.draw`. -/
def XNODE.draw.wallBody (map : XMAP) (SCALE : JSNum) (this : XNODE) (s : DrawState) :
    Except Abrupt DrawState := do
  let iWall ← readGlobal s.globals.iWall
  let wall ← toObject this.walls[iWall]?
  wall.draw map SCALE s

/-- `this.draw(context)` of an `XNODE` whose `this.map` is `map`. -/
def XNODE.draw (M : MathImpl) (map : XMAP) (SCALE : JSNum) (this : XNODE) (fuel : Nat)
    (s : DrawState) : Except Abrupt DrawState := do
  let pt := map.robot2canvas SCALE this.x this.y
  let s := { s with globals := { s.globals with iPoint := some 0 } }
  let s ← forGlobal (fun g => g.iPoint) (fun g v => { g with iPoint := some v })
    this.points.length (XNODE.draw.pointBody map SCALE this pt) fuel s
  let s ← drawCircle pt.x pt.y (.fin 20) "#FFFFFF" (some "#FFFFFF") s
  let s ← drawCircle pt.x pt.y (.fin 10) "#FF0000" (some "#FFFFFF") s
  let s ← drawCircle pt.x pt.y (.fin 6) "#FF0000" none s
  let s ← drawArrow M pt.x pt.y (.fin 5) this.orientation "#FF000" fuel s
  let s := { s with globals := { s.globals with iWall := some 0 } }
  forGlobal (fun g => g.iWall) (fun g v => { g with iWall := some v }) this.walls.length
    (XNODE.draw.wallBody map SCALE this) fuel s

/-- The body of the `for (iNode ...)` loop of `XMAP.draw`. -/
def XMAP.draw.body (M : MathImpl) (SCALE : JSNum) (this : XMAP) (fuel : Nat) (s : DrawState) :
    Except Abrupt DrawState := do
  let iNode ← readGlobal s.globals.iNode
  let node ← toObject this.nodes[iNode]?
  node.draw M this SCALE fuel s

/-- `this.draw(context)` of an `XMAP`. -/
def XMAP.draw (M : MathImpl) (SCALE : JSNum) (this : XMAP) (fuel : Nat) (s : DrawState) :
    Except Abrupt DrawState :=
  let s := { s with globals := { s.globals with iNode := some 0 } }
  forGlobal (fun g => g.iNode) (fun g v => { g with iNode := some v }) this.nodes.length
    (XMAP.draw.body M SCALE this fuel) fuel s

/-! ## Auxiliary definitions used in the statements -/

/-- The text holds no number for either reader: after leading white space and
an optional sign it is empty, or it begins with neither a decimal digit, nor
`Infinity`, nor a `.` followed by a decimal digit. -/
def holdsNoNumber (v : String) : Bool :=
  match (splitSign (trimStart v.data)).2 with
  | [] => true
  | c :: r =>
    !(c.isDigit || "Infinity".data.isPrefixOf (c :: r)
      || (c == '.' && (r.head?.map Char.isDigit).getD false))

/-- The XML of the round-trip scenario:
`<map minX="0" maxX="100" minY="0" maxY="100"><node x="10" y="20"/></map>`. -/
def scenarioMap : Element :=
  .mk "map" [("minX", "0"), ("maxX", "100"), ("minY", "0"), ("maxY", "100")]
    [.mk "node" [("x", "10"), ("y", "20")] []]

/-- The XML `<node x="10" y="20" orientation="90"><point x="1.5" y="-2" valid="True"/>
<wall><Pt1 x="1" y="2"/><Pt2 x="3" y="4" valid="1"/></wall></node>`. -/
def sampleNode : Element :=
  .mk "node" [("x", "10"), ("y", "20"), ("orientation", "90")]
    [.mk "point" [("x", "1.5"), ("y", "-2"), ("valid", "True")] [],
     .mk "wall" [] [.mk "Pt1" [("x", "1"), ("y", "2")] [],
                    .mk "Pt2" [("x", "3"), ("y", "4"), ("valid", "1")] []]]

/-- The XML `<wall><g><Pt1 x="1" y="2"/></g><Pt2 x="3" y="4" valid="1"/></wall>`:
no child of the wall is a `Pt1`, a grandchild is. -/
def wallNestedPt1 : Element :=
  .mk "wall" [] [.mk "g" [] [.mk "Pt1" [("x", "1"), ("y", "2")] []],
                 .mk "Pt2" [("x", "3"), ("y", "4"), ("valid", "1")] []]

/-- The XML `<wall><Pt1 x="1" y="2"/></wall>`: a wall without `Pt2`. -/
def wallWithoutPt2 : Element :=
  .mk "wall" [] [.mk "Pt1" [("x", "1"), ("y", "2")] []]

/-- The XML `<node x="10" y="20"><wall><Pt1 x="1" y="2"/></wall></node>`. -/
def nodeWithBrokenWall : Element :=
  .mk "node" [("x", "10"), ("y", "20")] [wallWithoutPt2]

/-- The XML `<map minX="0" maxX="100" minY="0" maxY="100">` around
`nodeWithBrokenWall`. -/
def mapWithBrokenWall : Element :=
  .mk "map" [("minX", "0"), ("maxX", "100"), ("minY", "0"), ("maxY", "100")]
    [nodeWithBrokenWall]

/-! ## Closed forms of what the drawing routines emit

Each is proved below to be what the corresponding routine appends to the
context. -/

/-- The calls of `drawLine`. -/
def drawLine.commands (x1 y1 x2 y2 : JSNum) (fgColor : String) : List Cmd :=
  [.strokeStyle fgColor, .beginPath, .moveTo x1 y1, .lineTo x2 y2, .stroke]

/-- The calls of one `XPOINT.draw`. -/
def XPOINT.commands (map : XMAP) (SCALE : JSNum) (p : XPOINT) : List Cmd :=
  [.fillStyle "#5050FF", .strokeStyle "#5050FF", .beginPath,
    .arc (map.robot2canvas SCALE p.x p.y).x (map.robot2canvas SCALE p.x p.y).y (.fin 5) (.fin 0)
      ((JSNum.fin 2).mul Math.PI),
    if p.isValid then .fill else .stroke]

/-- The calls of one `XWALL.draw`. -/
def XWALL.commands (map : XMAP) (SCALE : JSNum) (w : XWALL) : List Cmd :=
  [.save, .lineWidth (.fin 4)] ++
  drawLine.commands (map.robot2canvas SCALE w.pt1.x w.pt1.y).x
    (map.robot2canvas SCALE w.pt1.x w.pt1.y).y (map.robot2canvas SCALE w.pt2.x w.pt2.y).x
    (map.robot2canvas SCALE w.pt2.x w.pt2.y).y "#00007F" ++
  [.restore]

/-- The entry `rotArrow[k]` computed by `drawArrow` from the entry `(a0, a1)` of
`ARROW`. -/
def drawArrow.rotated (M : MathImpl) (R orientation a0 a1 : JSNum) : List (Option JSNum) :=
  [some (((a0.mul R).mul (Math.cos M orientation)).add ((a1.mul R).mul (Math.sin M orientation))),
   some (((a0.neg.mul R).mul (Math.sin M orientation)).add
      ((a1.mul R).mul (Math.cos M orientation)))]

/-- The array `rotArrow` at the end of the loop of `drawArrow`. -/
def drawArrow.rotArrow (M : MathImpl) (R orientation : JSNum) :
    List (Option (List (Option JSNum))) :=
  [some (drawArrow.rotated M R orientation (.fin 0) (.fin (-3))),
   some (drawArrow.rotated M R orientation (.fin 0) (.fin 4)),
   some (drawArrow.rotated M R orientation (.fin (-1)) (.fin 2)),
   some (drawArrow.rotated M R orientation (.fin 1) (.fin 2))]

/-- The number `rotArrow[i][j]` of that array. -/
def drawArrow.entry (M : MathImpl) (R orientation : JSNum) (i j : Nat) : JSNum :=
  toNumber (((drawArrow.rotArrow M R orientation)[i]?.join.getD [])[j]?.join)

/-- The calls of `drawArrow`. -/
def drawArrow.commands (M : MathImpl) (x0 y0 R orientation : JSNum) (fgColor : String) :
    List Cmd :=
  [.save, .strokeStyle fgColor, .lineWidth (.fin 2), .strokeStyle fgColor, .beginPath,
   .moveTo (x0.add (drawArrow.entry M R orientation 0 0))
     (y0.sub (drawArrow.entry M R orientation 0 1)),
   .lineTo (x0.add (drawArrow.entry M R orientation 1 0))
     (y0.sub (drawArrow.entry M R orientation 1 1)),
   .moveTo (x0.add (drawArrow.entry M R orientation 2 0))
     (y0.sub (drawArrow.entry M R orientation 2 1)),
   .lineTo (x0.add (drawArrow.entry M R orientation 1 0))
     (y0.sub (drawArrow.entry M R orientation 1 1)),
   .moveTo (x0.add (drawArrow.entry M R orientation 3 0))
     (y0.sub (drawArrow.entry M R orientation 3 1)),
   .lineTo (x0.add (drawArrow.entry M R orientation 1 0))
     (y0.sub (drawArrow.entry M R orientation 1 1)),
   .stroke, .restore]

/-- What `XNODE.draw` emits before the station marker: for each scan point, the
line from the station to it, then the point. -/
def XNODE.commandsBeforeMarker (map : XMAP) (SCALE : JSNum) (n : XNODE) : List Cmd :=
  n.points.flatMap (fun p =>
    drawLine.commands (map.robot2canvas SCALE n.x n.y).x (map.robot2canvas SCALE n.x n.y).y
      (map.robot2canvas SCALE p.x p.y).x (map.robot2canvas SCALE p.x p.y).y "#CFCFFF" ++
    XPOINT.commands map SCALE p)

/-- The station marker as `XNODE.draw` emits it: three circles around the
station's canvas position. -/
def XNODE.marker (map : XMAP) (SCALE : JSNum) (n : XNODE) : List Cmd :=
  [.fillStyle "#FFFFFF", .beginPath,
   .arc (map.robot2canvas SCALE n.x n.y).x (map.robot2canvas SCALE n.x n.y).y (.fin 20) (.fin 0)
     ((JSNum.fin 2).mul Math.PI),
   .fill,
   .strokeStyle "#FFFFFF", .beginPath,
   .arc (map.robot2canvas SCALE n.x n.y).x (map.robot2canvas SCALE n.x n.y).y (.fin 20) (.fin 0)
     ((JSNum.fin 2).mul Math.PI),
   .stroke,
   .fillStyle "#FFFFFF", .beginPath,
   .arc (map.robot2canvas SCALE n.x n.y).x (map.robot2canvas SCALE n.x n.y).y (.fin 10) (.fin 0)
     ((JSNum.fin 2).mul Math.PI),
   .fill,
   .strokeStyle "#FF0000", .beginPath,
   .arc (map.robot2canvas SCALE n.x n.y).x (map.robot2canvas SCALE n.x n.y).y (.fin 10) (.fin 0)
     ((JSNum.fin 2).mul Math.PI),
   .stroke,
   .strokeStyle "#FF0000", .beginPath,
   .arc (map.robot2canvas SCALE n.x n.y).x (map.robot2canvas SCALE n.x n.y).y (.fin 6) (.fin 0)
     ((JSNum.fin 2).mul Math.PI),
   .stroke]

/-- What `XNODE.draw` emits after the station marker: the orientation arrow,
then the walls. -/
def XNODE.commandsAfterMarker (M : MathImpl) (map : XMAP) (SCALE : JSNum) (n : XNODE) :
    List Cmd :=
  drawArrow.commands M (map.robot2canvas SCALE n.x n.y).x (map.robot2canvas SCALE n.x n.y).y
    (.fin 5) n.orientation "#FF000" ++
  n.walls.flatMap (XWALL.commands map SCALE)

/-- The calls of one `XNODE.draw`. -/
def XNODE.commands (M : MathImpl) (map : XMAP) (SCALE : JSNum) (n : XNODE) : List Cmd :=
  XNODE.commandsBeforeMarker map SCALE n ++ XNODE.marker map SCALE n ++
    XNODE.commandsAfterMarker M map SCALE n

/-- The calls of one `XMAP.draw`. -/
def XMAP.commands (M : MathImpl) (SCALE : JSNum) (map : XMAP) : List Cmd :=
  map.nodes.flatMap (XNODE.commands M map SCALE)

/-- The longest loop `XNODE.draw` runs: over `ARROW`, the points or the walls. -/
def XNODE.loopBound (n : XNODE) : Nat :=
  max ARROW.length (max n.points.length n.walls.length)

/-- The longest loop `XMAP.draw` runs, those of its nodes included. -/
def XMAP.loopBound (map : XMAP) : Nat :=
  (map.nodes.map XNODE.loopBound).foldr max map.nodes.length

/-- An engine for the closed examples below: `sin` and `cos` by their Taylor
polynomials of degree 7 and 6.  The theorems hold for every `MathImpl`; the
examples have orientation 0, where `Math.sin` and `Math.cos` do not consult
the engine. -/
def MathImpl.taylor : MathImpl where
  sin q := JSNum.ofRat (q - q ^ 3 / 6 + q ^ 5 / 120 - q ^ 7 / 5040)
  cos q := JSNum.ofRat (1 - q ^ 2 / 2 + q ^ 4 / 24 - q ^ 6 / 720)

/-- The map of the round-trip scenario with one station at (10, 20), orientation
0, one valid scan point at (30, 40) and one wall from (1, 2) to (3, 4). -/
def sampleMap : XMAP :=
  { minX := .fin 0, maxX := .fin 100, minY := .fin 0, maxY := .fin 100,
    nodes := [{ x := .fin 10, y := .fin 20, orientation := .fin 0,
                points := [{ x := .fin 30, y := .fin 40, isValid := true }],
                walls := [{ pt1 := { x := .fin 1, y := .fin 2, isValid := false },
                            pt2 := { x := .fin 3, y := .fin 4, isValid := true } }] }] }

/-- A station at (10, 20) with orientation 0 and neither points nor walls. -/
def bareStation : XNODE :=
  { x := .fin 10, y := .fin 20, orientation := .fin 0, points := [], walls := [] }

/-! # Theorems -/

/-! ## Basic facts -/

@[simp] theorem Except.ok_bind {ε α β : Type} (a : α) (f : α → Except ε β) :
    (Except.ok a >>= f) = f a := rfl

@[simp] theorem Except.error_bind {ε α β : Type} (e : ε) (f : α → Except ε β) :
    (Except.error e >>= f) = Except.error e := rfl

@[simp] theorem Except.pure_eq_ok {ε α : Type} (a : α) : (pure a : Except ε α) = Except.ok a := rfl

theorem getFloatAttribute_some (el : Element) (name : String) :
    getFloatAttribute (some el) name =
      .ok (match el.getAttribute name with
        | none => .fin 0
        | some v => parseFloat v) := rfl

theorem getIntAttribute_some (el : Element) (name : String) :
    getIntAttribute (some el) name =
      .ok (match el.getAttribute name with
        | none => .fin 0
        | some v => parseInt v) := rfl

theorem getBooleanAttribute_some (el : Element) (name : String) :
    getBooleanAttribute (some el) name =
      .ok (el.getAttribute name == some "true" || el.getAttribute name == some "True"
        || el.getAttribute name == some "TRUE" || el.getAttribute name == some "1") := rfl

/-! ## Attribute readers -/

/-- C5: for every element that does not carry attribute `a`, `getFloatAttribute`
returns 0.0, `getIntAttribute` returns 0 and `getBooleanAttribute` returns false;
each returns normally (`.ok`), none throws. -/
theorem readers_default_when_absent (el : Element) (a : String)
    (h : el.getAttribute a = none) :
    getFloatAttribute (some el) a = .ok (.fin 0) ∧
    getIntAttribute (some el) a = .ok (.fin 0) ∧
    getBooleanAttribute (some el) a = .ok false := by
  simp [getFloatAttribute_some, getIntAttribute_some, getBooleanAttribute_some, h]

/-- Witness of C5 on `<point x="1"/>`, which has no attribute `y`. -/
theorem readers_default_when_absent_witness :
    (Element.mk "point" [("x", "1")] []).getAttribute "y" = none ∧
    (getFloatAttribute (some (Element.mk "point" [("x", "1")] [])) "y" = .ok (.fin 0) ∧
     getIntAttribute (some (Element.mk "point" [("x", "1")] [])) "y" = .ok (.fin 0) ∧
     getBooleanAttribute (some (Element.mk "point" [("x", "1")] [])) "y" = .ok false) :=
  ⟨by decide, readers_default_when_absent _ _ (by decide)⟩

/-- C6: `getBooleanAttribute` returns true exactly when the attribute's value is
one of the four strings "true", "True", "TRUE", "1"; it returns false for every
other value, among them "false", "0" and the empty string, and for an absent
attribute. -/
theorem getBooleanAttribute_four_strings (el : Element) (name : String) :
    (getBooleanAttribute (some el) name = .ok true ↔
      el.getAttribute name ∈ [some "true", some "True", some "TRUE", some "1"]) ∧
    (el.getAttribute name ∉ [some "true", some "True", some "TRUE", some "1"] →
      getBooleanAttribute (some el) name = .ok false) ∧
    (el.getAttribute name ∈ [some "false", some "0", some "", none] →
      getBooleanAttribute (some el) name = .ok false) := by
  rw [getBooleanAttribute_some]
  generalize el.getAttribute name = v
  refine ⟨?_, ?_, ?_⟩
  · simp [or_assoc]
  · intro h
    simp only [List.mem_cons, List.mem_singleton, not_or, List.mem_nil_iff, or_false] at h
    simp [h]
  · intro h
    simp only [List.mem_cons, List.mem_singleton, List.mem_nil_iff, or_false] at h
    rcases h with h | h | h | h <;> subst h <;> decide

/-- C2, as the code has it: `getBooleanAttribute` returns true if and only if the
attribute is present and its value is exactly "true", "True", "TRUE" or "1" (the
comparison is case-sensitive: only these three spellings of "true" count); for
every other value, and when the attribute is absent, it returns false. -/
theorem getBooleanAttribute_exact_spellings (el : Element) (name : String) :
    getBooleanAttribute (some el) name =
      .ok (match el.getAttribute name with
        | some v => decide (v = "true" ∨ v = "True" ∨ v = "TRUE" ∨ v = "1")
        | none => false) := by
  rw [getBooleanAttribute_some]
  cases el.getAttribute name with
  | none => rfl
  | some v =>
    congr 1
    rw [Bool.eq_iff_iff]
    simp [or_assoc]

/-- C2 fails as stated: the value "tRuE" equals "true" under case-insensitive
comparison, yet `getBooleanAttribute` returns false on `<point valid="tRuE"/>`. -/
theorem getBooleanAttribute_mixed_case_is_false :
    "tRuE".data.map Char.toLower = "true".data ∧
    (Element.mk "point" [("valid", "tRuE")] []).getAttribute "valid" = some "tRuE" ∧
    getBooleanAttribute (some (Element.mk "point" [("valid", "tRuE")] [])) "valid" = .ok false := by
  decide

theorem parseFloat_nan_of_holdsNoNumber (v : String) (hv : holdsNoNumber v = true) :
    parseFloat v = .nan := by
  unfold holdsNoNumber at hv
  unfold parseFloat
  generalize splitSign (trimStart v.data) = p at hv ⊢
  obtain ⟨neg, u⟩ := p
  cases u with
  | nil => simp [List.isPrefixOf]
  | cons c r =>
    simp only [Bool.not_eq_true', Bool.or_eq_false_iff, Bool.and_eq_false_imp] at hv
    obtain ⟨⟨h1, h2⟩, h3⟩ := hv
    simp only [h2, List.takeWhile_cons, h1, List.dropWhile_cons]
    simp only [Bool.false_eq_true, ↓reduceIte, true_and]
    by_cases hc : c = '.'
    · subst hc
      simp only [beq_self_eq_true, forall_const] at h3
      cases r with
      | nil => simp
      | cons d r' =>
        simp only [List.head?_cons, Option.map_some', Option.getD_some] at h3
        simp [List.takeWhile_cons, h3]
    · have : (match c :: r with
          | '.' :: r => List.takeWhile Char.isDigit r
          | _ => []) = [] := by
        split
        · rename_i heq
          simp only [List.cons.injEq] at heq
          exact absurd heq.1 hc
        · rfl
      simp [this]

theorem parseInt_nan_of_holdsNoNumber (v : String) (hv : holdsNoNumber v = true) :
    parseInt v = .nan := by
  unfold holdsNoNumber at hv
  unfold parseInt
  generalize splitSign (trimStart v.data) = p at hv ⊢
  obtain ⟨neg, u⟩ := p
  cases u with
  | nil => simp [List.isPrefixOf]
  | cons c r =>
    simp only [Bool.not_eq_true', Bool.or_eq_false_iff, Bool.and_eq_false_imp] at hv
    obtain ⟨⟨h1, h2⟩, h3⟩ := hv
    have hc0 : ¬ '0' = c := by
      rintro rfl
      simp at h1
    have hx : ("0x".data.isPrefixOf (c :: r) || "0X".data.isPrefixOf (c :: r)) = false := by
      simp [List.isPrefixOf, hc0]
    simp only [hx]
    simp [List.takeWhile_cons, digitValue, h1]

/-- C3, as the code has it: for every element whose attribute is present but
whose text holds no number (such as "abc" or the empty string),
`getFloatAttribute` and `getIntAttribute` both return NaN, which is not the 0
they return when the attribute is absent; both return normally, neither
throws. -/
theorem readers_nan_on_unparsable_text (el : Element) (a v : String)
    (h : el.getAttribute a = some v) (hv : holdsNoNumber v = true) :
    getFloatAttribute (some el) a = .ok .nan ∧
    getIntAttribute (some el) a = .ok .nan ∧
    getFloatAttribute (some el) a ≠ .ok (.fin 0) ∧
    getIntAttribute (some el) a ≠ .ok (.fin 0) := by
  have hf : getFloatAttribute (some el) a = .ok .nan := by
    rw [getFloatAttribute_some, h]
    exact congrArg Except.ok (parseFloat_nan_of_holdsNoNumber v hv)
  have hi : getIntAttribute (some el) a = .ok .nan := by
    rw [getIntAttribute_some, h]
    exact congrArg Except.ok (parseInt_nan_of_holdsNoNumber v hv)
  refine ⟨hf, hi, ?_, ?_⟩
  · rw [hf]; decide
  · rw [hi]; decide

/-- Witness of C3 (amended) on `<point x="abc"/>`. -/
theorem readers_nan_on_unparsable_text_witness :
    (Element.mk "point" [("x", "abc")] []).getAttribute "x" = some "abc" ∧
    holdsNoNumber "abc" = true ∧
    (getFloatAttribute (some (Element.mk "point" [("x", "abc")] [])) "x" = .ok .nan ∧
     getIntAttribute (some (Element.mk "point" [("x", "abc")] [])) "x" = .ok .nan ∧
     getFloatAttribute (some (Element.mk "point" [("x", "abc")] [])) "x" ≠ .ok (.fin 0) ∧
     getIntAttribute (some (Element.mk "point" [("x", "abc")] [])) "x" ≠ .ok (.fin 0)) :=
  ⟨by decide, by decide, readers_nan_on_unparsable_text _ "x" "abc" (by decide) (by decide)⟩

/-- C3 fails as stated: on `<point x="abc" y=""/>` the attributes are present and
unparsable, `getFloatAttribute` and `getIntAttribute` return NaN for both, and NaN
is not the 0 (0.0) of the absent case. -/
theorem readers_unparsable_text_is_not_zero :
    getFloatAttribute (some (Element.mk "point" [("x", "abc"), ("y", "")] [])) "x" = .ok .nan ∧
    getFloatAttribute (some (Element.mk "point" [("x", "abc"), ("y", "")] [])) "y" = .ok .nan ∧
    getIntAttribute (some (Element.mk "point" [("x", "abc"), ("y", "")] [])) "x" = .ok .nan ∧
    getIntAttribute (some (Element.mk "point" [("x", "abc"), ("y", "")] [])) "y" = .ok .nan ∧
    getFloatAttribute (some (Element.mk "point" [("x", "abc"), ("y", "")] [])) "z" = .ok (.fin 0) ∧
    getIntAttribute (some (Element.mk "point" [("x", "abc"), ("y", "")] [])) "z" = .ok (.fin 0) ∧
    JSNum.nan ≠ JSNum.fin 0 := by
  decide

/-! ## Coordinates -/

/-- C1: for every map, every value of SCALE and every robot-space point (x, y),
`XMAP.robot2canvas` returns the POINT whose x is round((x - minX) * SCALE) and
whose y is round((maxY - y) * SCALE); with minX=0, maxX=100, minY=0, maxY=100 and
SCALE=1 a station at robot (10, 20) is mapped to screen (10, 80), also when map
and station are built from the XML of the scenario. -/
theorem robot2canvas_formula :
    (∀ (map : XMAP) (SCALE x y : JSNum),
      map.robot2canvas SCALE x y =
        { x := Math.round ((x.sub map.minX).mul SCALE),
          y := Math.round ((map.maxY.sub y).mul SCALE) }) ∧
    (∀ nodes : List XNODE,
      XMAP.robot2canvas
          { minX := .fin 0, maxX := .fin 100, minY := .fin 0, maxY := .fin 100, nodes := nodes }
          (.fin 1) (.fin 10) (.fin 20) = { x := .fin 10, y := .fin 80 }) ∧
    (XMAP.new scenarioMap).map
        (fun map => map.nodes.map (fun node => map.robot2canvas (.fin 1) node.x node.y)) =
      .ok [{ x := .fin 10, y := .fin 80 }] := by
  refine ⟨fun _ _ _ _ => rfl, fun _ => ?_, by decide!⟩
  show POINT.mk (Math.round (((JSNum.fin 10).sub (.fin 0)).mul (.fin 1)))
    (Math.round (((JSNum.fin 100).sub (.fin 20)).mul (.fin 1))) = _
  decide!

/-! ## Construction -/

theorem XPOINT_new_none : XPOINT.new none = .error .typeError := rfl

theorem XPOINT_new_some (el : Element) : ∃ p, XPOINT.new (some el) = .ok p := by
  simp [XPOINT.new, getFloatAttribute_some, getBooleanAttribute_some]

theorem XPOINT_new_error (el : Option Element) (e : Abrupt) (h : XPOINT.new el = .error e) :
    e = .typeError := by
  cases el with
  | none => rw [XPOINT_new_none] at h; cases h; rfl
  | some el =>
    obtain ⟨p, hp⟩ := XPOINT_new_some el
    rw [hp] at h
    cases h

theorem getElementsByTagName_eq_nil (el : Element) (name : String) (hname : name ≠ "*")
    (h : ∀ d ∈ el.descendants, d.tagName ≠ name) : el.getElementsByTagName name = [] := by
  unfold Element.getElementsByTagName
  rw [List.filter_eq_nil_iff]
  intro d hd
  simp [hname, h d hd]

theorem XWALL_new_error (el : Element) (e : Abrupt) (h : XWALL.new el = .error e) :
    e = .typeError := by
  unfold XWALL.new at h
  cases h1 : XPOINT.new (el.getElementsByTagName "Pt1")[0]? with
  | error e1 =>
    simp only [h1, bind, Except.bind] at h
    cases h
    exact XPOINT_new_error _ _ h1
  | ok p1 =>
    cases h2 : XPOINT.new (el.getElementsByTagName "Pt2")[0]? with
    | error e2 =>
      simp only [h1, h2, bind, Except.bind] at h
      cases h
      exact XPOINT_new_error _ _ h2
    | ok p2 =>
      simp only [h1, h2, bind, Except.bind, pure, Except.pure] at h
      cases h

theorem XWALL_new_of_missing (el : Element)
    (h : el.getElementsByTagName "Pt1" = [] ∨ el.getElementsByTagName "Pt2" = []) :
    XWALL.new el = .error .typeError := by
  rcases h with h | h
  · simp [XWALL.new, h, XPOINT_new_none]
  · cases h1 : XPOINT.new (el.getElementsByTagName "Pt1")[0]? with
    | error e1 =>
      have := XPOINT_new_error _ _ h1
      subst this
      simp [XWALL.new, h1]
    | ok p1 => simp [XWALL.new, h, h1, XPOINT_new_none]

theorem getArrayContent_fill_error {α : Type} (ctor : Element → Except Abrupt α) (E : Abrupt)
    (l : List Element) (hall : ∀ x ∈ l, ∀ e, ctor x = .error e → e = E)
    (hex : ∃ x ∈ l, ctor x = .error E) : getArrayContent.fill ctor l = .error E := by
  induction l with
  | nil => simp at hex
  | cons c cs ih =>
    unfold getArrayContent.fill
    cases hc : ctor c with
    | error e =>
      have := hall c (List.mem_cons_self _ _) e hc
      subst this
      rfl
    | ok y =>
      have hcs : getArrayContent.fill ctor cs = .error E := by
        apply ih (fun x hx => hall x (List.mem_cons_of_mem _ hx))
        obtain ⟨x, hx, hxe⟩ := hex
        rcases List.mem_cons.mp hx with rfl | hx'
        · rw [hc] at hxe; cases hxe
        · exact ⟨x, hx', hxe⟩
      simp [hcs]

theorem getArrayContent_fill_error_only {α : Type} (ctor : Element → Except Abrupt α)
    (E : Abrupt) (l : List Element) (hall : ∀ x ∈ l, ∀ e, ctor x = .error e → e = E)
    (e : Abrupt) (h : getArrayContent.fill ctor l = .error e) : e = E := by
  induction l with
  | nil => cases h
  | cons c cs ih =>
    unfold getArrayContent.fill at h
    cases hc : ctor c with
    | error e' =>
      simp only [hc, bind, Except.bind] at h
      cases h
      exact hall c (List.mem_cons_self _ _) e hc
    | ok y =>
      cases hcs : getArrayContent.fill ctor cs with
      | error e' =>
        simp only [hc, hcs, bind, Except.bind] at h
        cases h
        exact ih (fun x hx => hall x (List.mem_cons_of_mem _ hx)) hcs
      | ok ys =>
        simp only [hc, hcs, bind, Except.bind, pure, Except.pure] at h
        cases h

theorem getArrayContent_fill_ok {α : Type} (ctor : Element → Except Abrupt α)
    (l : List Element) (hall : ∀ x ∈ l, ∃ y, ctor x = .ok y) :
    ∃ ys, getArrayContent.fill ctor l = .ok ys := by
  induction l with
  | nil => exact ⟨[], rfl⟩
  | cons c cs ih =>
    obtain ⟨y, hy⟩ := hall c (List.mem_cons_self _ _)
    obtain ⟨ys, hys⟩ := ih (fun x hx => hall x (List.mem_cons_of_mem _ hx))
    exact ⟨y :: ys, by simp [getArrayContent.fill, hy, hys]⟩

theorem XNODE_new_points (elNode : Element) :
    ∃ ps, getArrayContent elNode "point" (fun el => XPOINT.new (some el)) = .ok ps :=
  getArrayContent_fill_ok _ _ (fun x _ => XPOINT_new_some x)

theorem XNODE_new_error (elNode : Element) (e : Abrupt) (h : XNODE.new elNode = .error e) :
    e = .typeError := by
  obtain ⟨ps, hps⟩ := XNODE_new_points elNode
  unfold XNODE.new at h
  simp only [getFloatAttribute_some, Except.ok_bind, hps] at h
  cases hw : getArrayContent elNode "wall" XWALL.new with
  | error e' =>
    simp only [hw, Except.error_bind] at h
    cases h
    exact getArrayContent_fill_error_only _ _ _ (fun x _ e he => XWALL_new_error x e he) _ hw
  | ok ws =>
    simp only [hw, Except.ok_bind, Except.pure_eq_ok] at h
    cases h

theorem XNODE_new_of_broken_wall (elNode elWall : Element)
    (hmem : elWall ∈ elNode.getElementsByTagName "wall")
    (hw : XWALL.new elWall = .error .typeError) : XNODE.new elNode = .error .typeError := by
  obtain ⟨ps, hps⟩ := XNODE_new_points elNode
  have : getArrayContent elNode "wall" XWALL.new = .error .typeError :=
    getArrayContent_fill_error _ _ _ (fun x _ e he => XWALL_new_error x e he) ⟨elWall, hmem, hw⟩
  simp [XNODE.new, getFloatAttribute_some, hps, this]

theorem XMAP_new_of_broken_node (elMap elNode : Element)
    (hmem : elNode ∈ elMap.getElementsByTagName "node")
    (hn : XNODE.new elNode = .error .typeError) : XMAP.new elMap = .error .typeError := by
  have : getArrayContent elMap "node" XNODE.new = .error .typeError :=
    getArrayContent_fill_error _ _ _ (fun x _ e he => XNODE_new_error x e he) ⟨elNode, hmem, hn⟩
  simp [XMAP.new, getFloatAttribute_some, this]

/-- C4, as the code has it: for every wall element with no `Pt1` element or no
`Pt2` element among its descendants (`getElementsByTagName` searches all
descendants, not only the children), constructing the XWALL fails with a
TypeError instead of producing a wall; the failure propagates through
`getArrayContent`: constructing the XNODE of any node element that contains the
wall fails, and so does constructing the XMAP of any map element that contains
that node (no partial map is produced). -/
theorem XWALL_without_endpoint_aborts (elWall : Element)
    (h : (∀ d ∈ elWall.descendants, d.tagName ≠ "Pt1") ∨
         (∀ d ∈ elWall.descendants, d.tagName ≠ "Pt2")) :
    XWALL.new elWall = .error .typeError ∧
    ∀ elNode, elWall ∈ elNode.getElementsByTagName "wall" →
      XNODE.new elNode = .error .typeError ∧
      ∀ elMap, elNode ∈ elMap.getElementsByTagName "node" →
        XMAP.new elMap = .error .typeError := by
  have hw : XWALL.new elWall = .error .typeError := by
    apply XWALL_new_of_missing
    rcases h with h | h
    · exact Or.inl (getElementsByTagName_eq_nil _ _ (by decide) h)
    · exact Or.inr (getElementsByTagName_eq_nil _ _ (by decide) h)
  refine ⟨hw, fun elNode hmem => ?_⟩
  have hn := XNODE_new_of_broken_wall elNode elWall hmem hw
  exact ⟨hn, fun elMap hmem' => XMAP_new_of_broken_node elMap elNode hmem' hn⟩

/-- Witness of C4 (amended): `<wall><Pt1 x="1" y="2"/></wall>` inside a node
inside a map; the wall, the node and the map all fail to construct. -/
theorem XWALL_without_endpoint_aborts_witness :
    ((∀ d ∈ wallWithoutPt2.descendants, d.tagName ≠ "Pt1") ∨
     (∀ d ∈ wallWithoutPt2.descendants, d.tagName ≠ "Pt2")) ∧
    XWALL.new wallWithoutPt2 = .error .typeError ∧
    XNODE.new nodeWithBrokenWall = .error .typeError ∧
    XMAP.new mapWithBrokenWall = .error .typeError :=
  have h := XWALL_without_endpoint_aborts wallWithoutPt2 (Or.inr (by decide))
  have hn := h.2 nodeWithBrokenWall (List.Mem.head _)
  ⟨Or.inr (by decide), h.1, hn.1, hn.2 mapWithBrokenWall (List.Mem.head _)⟩

/-- C4 fails as stated: the wall
`<wall><g><Pt1 x="1" y="2"/></g><Pt2 x="3" y="4" valid="1"/></wall>` has no `Pt1`
child, yet `new XWALL` succeeds, taking the nested `Pt1` as first endpoint. -/
theorem XWALL_nested_endpoint_is_found :
    (∀ c ∈ wallNestedPt1.children, c.tagName ≠ "Pt1") ∧
    XWALL.new wallNestedPt1 =
      .ok { pt1 := { x := .fin 1, y := .fin 2, isValid := false },
            pt2 := { x := .fin 3, y := .fin 4, isValid := true } } := by
  refine ⟨by decide, by decide!⟩

/-- C9: for every node element (whose walls have their endpoints, so that the
XNODE is constructed) the constructed XNODE stores
orientation = d * Math.PI / 180, where d is the number read from the
`orientation` attribute; an absent attribute gives 0, and the text "90" gives
Math.PI / 2. -/
theorem XNODE_orientation_in_radians (elNode : Element)
    (hwalls : ∀ w ∈ elNode.getElementsByTagName "wall",
      w.getElementsByTagName "Pt1" ≠ [] ∧ w.getElementsByTagName "Pt2" ≠ []) :
    ∃ node, XNODE.new elNode = .ok node ∧
      node.orientation =
        ((match elNode.getAttribute "orientation" with
          | none => JSNum.fin 0
          | some v => parseFloat v).mul Math.PI).div (.fin 180) ∧
      (elNode.getAttribute "orientation" = none → node.orientation = .fin 0) ∧
      (elNode.getAttribute "orientation" = some "90" →
        node.orientation = Math.PI.div (.fin 2)) := by
  obtain ⟨ps, hps⟩ := XNODE_new_points elNode
  have hws : ∃ ws, getArrayContent elNode "wall" XWALL.new = .ok ws := by
    apply getArrayContent_fill_ok
    intro w hw
    obtain ⟨h1, h2⟩ := hwalls w hw
    obtain ⟨e1, r1, he1⟩ := List.exists_cons_of_ne_nil h1
    obtain ⟨e2, r2, he2⟩ := List.exists_cons_of_ne_nil h2
    obtain ⟨p1, hp1⟩ := XPOINT_new_some e1
    obtain ⟨p2, hp2⟩ := XPOINT_new_some e2
    exact ⟨⟨p1, p2⟩, by simp [XWALL.new, he1, he2, hp1, hp2]⟩
  obtain ⟨ws, hws⟩ := hws
  refine ⟨_, by simp [XNODE.new, getFloatAttribute_some, hps, hws]; rfl, rfl, ?_, ?_⟩
  · intro h
    simp only [h]
    decide!
  · intro h
    simp only [h]
    decide!

/-- Witness of C9 on `sampleNode`, whose `orientation` is "90". -/
theorem XNODE_orientation_in_radians_witness :
    (∀ w ∈ sampleNode.getElementsByTagName "wall",
      w.getElementsByTagName "Pt1" ≠ [] ∧ w.getElementsByTagName "Pt2" ≠ []) ∧
    ∃ node, XNODE.new sampleNode = .ok node ∧
      node.orientation =
        ((match sampleNode.getAttribute "orientation" with
          | none => JSNum.fin 0
          | some v => parseFloat v).mul Math.PI).div (.fin 180) ∧
      (sampleNode.getAttribute "orientation" = none → node.orientation = .fin 0) ∧
      (sampleNode.getAttribute "orientation" = some "90" →
        node.orientation = Math.PI.div (.fin 2)) :=
  ⟨by simp [sampleNode, Element.getElementsByTagName, Element.descendants,
      Element.descendantsOfList, Element.tagName],
    XNODE_orientation_in_radians sampleNode (by
      simp [sampleNode, Element.getElementsByTagName, Element.descendants,
        Element.descendantsOfList, Element.tagName])⟩

/-! ## Drawing -/

theorem drawLine_run (x1 y1 x2 y2 : JSNum) (fg : String) (s : DrawState) :
    drawLine x1 y1 x2 y2 fg s =
      .ok ⟨s.globals, s.context ++ drawLine.commands x1 y1 x2 y2 fg⟩ := rfl

theorem XPOINT_draw_run (map : XMAP) (SCALE : JSNum) (p : XPOINT) (s : DrawState) :
    XPOINT.draw map SCALE p s = .ok ⟨s.globals, s.context ++ XPOINT.commands map SCALE p⟩ := by
  cases hv : p.isValid <;>
    simp [XPOINT.draw, XPOINT.commands, DrawState.call, hv]

theorem XWALL_draw_run (map : XMAP) (SCALE : JSNum) (w : XWALL) (s : DrawState) :
    XWALL.draw map SCALE w s =
      .ok ⟨{ s.globals with
              p1 := some (map.robot2canvas SCALE w.pt1.x w.pt1.y),
              p2 := some (map.robot2canvas SCALE w.pt2.x w.pt2.y) },
           s.context ++ XWALL.commands map SCALE w⟩ := by
  simp [XWALL.draw, XWALL.commands, drawLine_run, DrawState.call, readGlobal]

/-- The loop over a global counter visits the entries of `l` from the counter's
value on, once each and in order, provided the body leaves the counter alone
and emits `f x` at entry `x`; `R` is any relation between the globals before
and after that the body and the counter steps maintain. -/
theorem forGlobal_run {β : Type} (get : Globals → Option Nat) (set : Globals → Nat → Globals)
    (R : Globals → Globals → Prop) (l : List β) (f : β → List Cmd)
    (body : DrawState → Except Abrupt DrawState)
    (hget : ∀ g v, get (set g v) = some v)
    (hrefl : ∀ g, R g g) (htrans : ∀ a b c, R a b → R b c → R a c)
    (hset : ∀ g v, R g (set g v))
    (hbody : ∀ i x s, l[i]? = some x → get s.globals = some i →
      ∃ g', body s = .ok ⟨g', s.context ++ f x⟩ ∧ get g' = some i ∧ R s.globals g') :
    ∀ (fuel c : Nat) (s : DrawState), get s.globals = some c → c ≤ l.length →
      l.length - c < fuel →
      ∃ g', forGlobal get set l.length body fuel s =
          .ok ⟨g', s.context ++ (l.drop c).flatMap f⟩ ∧ R s.globals g' := by
  intro fuel
  induction fuel with
  | zero => intro c s _ _ h; omega
  | succ fuel ih =>
    intro c s hc hle hfuel
    unfold forGlobal
    simp only [hc, readGlobal, Except.ok_bind]
    by_cases hlt : c < l.length
    · obtain ⟨g1, hb, hg1, hR1⟩ := hbody c l[c] s (List.getElem?_eq_getElem hlt) hc
      simp only [hlt, ↓reduceIte, hb, Except.ok_bind, hg1]
      obtain ⟨g2, hrun, hR2⟩ := ih (c + 1) ⟨set g1 (c + 1), s.context ++ f l[c]⟩
        (hget _ _) hlt (by omega)
      refine ⟨g2, ?_, htrans _ _ _ hR1 (htrans _ _ _ (hset _ _) hR2)⟩
      rw [hrun, List.drop_eq_getElem_cons hlt]
      simp only [List.flatMap_cons, List.append_assoc]
    · have : c = l.length := by omega
      subst this
      exact ⟨s.globals, by simp, hrefl _⟩

theorem forGlobal_step (get : Globals → Option Nat) (set : Globals → Nat → Globals) (n : Nat)
    (body : DrawState → Except Abrupt DrawState) (fuel c c' : Nat) (s s' : DrawState)
    (hc : get s.globals = some c) (hlt : c < n) (hb : body s = .ok s')
    (hc' : get s'.globals = some c') :
    forGlobal get set n body (fuel + 1) s =
      forGlobal get set n body fuel { s' with globals := set s'.globals (c' + 1) } := by
  rw [forGlobal]
  simp [hc, readGlobal, hlt, hb, hc']

theorem forGlobal_done (get : Globals → Option Nat) (set : Globals → Nat → Globals) (n : Nat)
    (body : DrawState → Except Abrupt DrawState) (fuel c : Nat) (s : DrawState)
    (hc : get s.globals = some c) (hge : n ≤ c) :
    forGlobal get set n body (fuel + 1) s = .ok s := by
  rw [forGlobal]
  simp [hc, readGlobal, Nat.not_lt.mpr hge]

/-- The loop over a global counter started at `c` ends with the counter at `n`
and maintains `Inv`, provided the body leaves the counter alone and takes
`Inv i` to `Inv (i + 1)`. -/
theorem forGlobal_inv (get : Globals → Option Nat) (set : Globals → Nat → Globals) (n : Nat)
    (body : DrawState → Except Abrupt DrawState) (Inv : Nat → DrawState → Prop)
    (hget : ∀ g v, get (set g v) = some v)
    (hbody : ∀ i s, i < n → get s.globals = some i → Inv i s →
      ∃ s', body s = .ok s' ∧ get s'.globals = some i ∧
        Inv (i + 1) { s' with globals := set s'.globals (i + 1) }) :
    ∀ (fuel c : Nat) (s : DrawState), get s.globals = some c → c ≤ n → n - c < fuel →
      Inv c s → ∃ s', forGlobal get set n body fuel s = .ok s' ∧ Inv n s' := by
  intro fuel
  induction fuel with
  | zero => intro c s _ _ h; omega
  | succ fuel ih =>
    intro c s hc hle hfuel hinv
    by_cases hlt : c < n
    · obtain ⟨s1, hb, hc1, hinv1⟩ := hbody c s hlt hc hinv
      rw [forGlobal_step get set n body fuel c c s s1 hc hlt hb hc1]
      exact ih (c + 1) _ (hget _ _) hlt (by omega) hinv1
    · have : c = n := by omega
      subst this
      exact ⟨s, forGlobal_done get set c body fuel c s hc (Nat.le_refl _), hinv⟩

theorem drawArrow_body_run (R : JSNum) (s : DrawState) (k : Nat) (a0 a1 c sn : JSNum)
    (rot : List (Option (List (Option JSNum))))
    (hk : s.globals.k = some k) (ha : ARROW[k]? = some [a0, a1])
    (hc : s.globals.cos = some c) (hs : s.globals.sin = some sn)
    (hr : s.globals.rotArrow = some rot) :
    drawArrow.body R s =
      .ok { s with globals := { s.globals with
        pt := some [some (((a0.mul R).mul c).add ((a1.mul R).mul sn)),
                    some (((a0.neg.mul R).mul sn).add ((a1.mul R).mul c))],
        rotArrow := some (arraySet rot k
          [some (((a0.mul R).mul c).add ((a1.mul R).mul sn)),
           some (((a0.neg.mul R).mul sn).add ((a1.mul R).mul c))]) } } := by
  simp [drawArrow.body, readGlobal, toObject, toNumber, hk, ha, hc, hs, hr, arraySet]

theorem drawArrow_loop_run (M : MathImpl) (R orientation : JSNum) (fuel : Nat)
    (hfuel : ARROW.length < fuel) (s : DrawState)
    (hk : s.globals.k = some 0)
    (hsin : s.globals.sin = some (Math.sin M orientation))
    (hcos : s.globals.cos = some (Math.cos M orientation))
    (hrot : s.globals.rotArrow = some (List.replicate ARROW.length none)) :
    ∃ s', forGlobal (fun g => g.k) (fun g v => { g with k := some v }) ARROW.length
        (drawArrow.body R) fuel s = .ok s' ∧ s'.context = s.context ∧
      s'.globals.iNode = s.globals.iNode ∧
      s'.globals.rotArrow = some (drawArrow.rotArrow M R orientation) := by
  have key := forGlobal_inv (fun g => g.k) (fun g v => { g with k := some v }) ARROW.length
    (drawArrow.body R)
    (fun i t => t.context = s.context ∧ t.globals.iNode = s.globals.iNode ∧
      t.globals.sin = some (Math.sin M orientation) ∧
      t.globals.cos = some (Math.cos M orientation) ∧
      t.globals.rotArrow = some ((drawArrow.rotArrow M R orientation).take i ++
        List.replicate (4 - i) none))
    (fun _ _ => rfl)
    (by
      intro i t hi hki ⟨hctx, hnode, hs, hc, hr⟩
      have hi4 : i < 4 := hi
      interval_cases i
      · exact ⟨_, drawArrow_body_run R t 0 (.fin 0) (.fin (-3)) _ _ _ hki rfl hc hs hr,
          hki, hctx, hnode, hs, hc, rfl⟩
      · exact ⟨_, drawArrow_body_run R t 1 (.fin 0) (.fin 4) _ _ _ hki rfl hc hs hr,
          hki, hctx, hnode, hs, hc, rfl⟩
      · exact ⟨_, drawArrow_body_run R t 2 (.fin (-1)) (.fin 2) _ _ _ hki rfl hc hs hr,
          hki, hctx, hnode, hs, hc, rfl⟩
      · exact ⟨_, drawArrow_body_run R t 3 (.fin 1) (.fin 2) _ _ _ hki rfl hc hs hr,
          hki, hctx, hnode, hs, hc, rfl⟩)
    fuel 0 s hk (Nat.zero_le _) hfuel ⟨rfl, rfl, hsin, hcos, hrot⟩
  obtain ⟨s', hrun, hctx, hnode, _, _, hr⟩ := key
  exact ⟨s', hrun, hctx, hnode, hr⟩

theorem rotArrowAt_run (M : MathImpl) (R orientation : JSNum) (s : DrawState)
    (hr : s.globals.rotArrow = some (drawArrow.rotArrow M R orientation)) (i j : Nat)
    (hi : i < 4) :
    rotArrowAt s i j = .ok (drawArrow.entry M R orientation i j) := by
  unfold rotArrowAt
  rw [hr]
  interval_cases i <;> rfl

theorem drawArrow_run (M : MathImpl) (x0 y0 R orientation : JSNum) (fg : String) (fuel : Nat)
    (hfuel : ARROW.length < fuel) (s : DrawState) :
    ∃ g', drawArrow M x0 y0 R orientation fg fuel s =
        .ok ⟨g', s.context ++ drawArrow.commands M x0 y0 R orientation fg⟩ ∧
      g'.iNode = s.globals.iNode := by
  obtain ⟨s1, hrun, hctx, hnode, hr⟩ := drawArrow_loop_run M R orientation fuel hfuel
    { globals := { s.globals with
        rotArrow := some (List.replicate ARROW.length none),
        sin := some (Math.sin M orientation),
        cos := some (Math.cos M orientation),
        k := some 0 },
      context := s.context ++ [.save, .strokeStyle fg, .lineWidth (.fin 2)] }
    rfl rfl rfl rfl
  have e : ∀ (ctx : List Cmd) (i j : Nat), i < 4 →
      rotArrowAt ⟨s1.globals, ctx⟩ i j = .ok (drawArrow.entry M R orientation i j) :=
    fun ctx i j hi => rotArrowAt_run M R orientation ⟨s1.globals, ctx⟩ hr i j hi
  refine ⟨s1.globals, ?_, hnode⟩
  unfold drawArrow
  simp only [DrawState.call]
  rw [hrun]
  have hctx' : s1.context = s.context ++ [.save, .strokeStyle fg, .lineWidth (.fin 2)] := hctx
  simp only [Except.ok_bind, Except.pure_eq_ok, e _ 0 0 (by decide), e _ 0 1 (by decide),
    e _ 1 0 (by decide), e _ 1 1 (by decide), e _ 2 0 (by decide), e _ 2 1 (by decide),
    e _ 3 0 (by decide), e _ 3 1 (by decide), hctx', drawArrow.commands, List.append_assoc,
    List.cons_append, List.nil_append]

theorem drawCircle_run_filled (x0 y0 R : JSNum) (fg bg : String) (s : DrawState) :
    drawCircle x0 y0 R fg (some bg) s =
      .ok ⟨s.globals, s.context ++
        [.fillStyle bg, .beginPath, .arc x0 y0 R (.fin 0) ((JSNum.fin 2).mul Math.PI), .fill,
         .strokeStyle fg, .beginPath, .arc x0 y0 R (.fin 0) ((JSNum.fin 2).mul Math.PI),
         .stroke]⟩ := by
  simp [drawCircle, DrawState.call]

theorem drawCircle_run_outline (x0 y0 R : JSNum) (fg : String) (s : DrawState) :
    drawCircle x0 y0 R fg none s =
      .ok ⟨s.globals, s.context ++
        [.strokeStyle fg, .beginPath, .arc x0 y0 R (.fin 0) ((JSNum.fin 2).mul Math.PI),
         .stroke]⟩ := by
  simp [drawCircle, DrawState.call]

theorem XNODE_draw_pointBody_run (map : XMAP) (SCALE : JSNum) (n : XNODE) (pt : POINT)
    (i : Nat) (p : XPOINT) (s : DrawState) (hp : n.points[i]? = some p)
    (hi : s.globals.iPoint = some i) :
    XNODE.draw.pointBody map SCALE n pt s =
      .ok ⟨{ s.globals with ipt := some (map.robot2canvas SCALE p.x p.y) },
        s.context ++
          (drawLine.commands pt.x pt.y (map.robot2canvas SCALE p.x p.y).x
            (map.robot2canvas SCALE p.x p.y).y "#CFCFFF" ++ XPOINT.commands map SCALE p)⟩ := by
  simp [XNODE.draw.pointBody, readGlobal, toObject, hi, hp, drawLine_run, XPOINT_draw_run]

theorem XNODE_draw_wallBody_run (map : XMAP) (SCALE : JSNum) (n : XNODE)
    (i : Nat) (w : XWALL) (s : DrawState) (hw : n.walls[i]? = some w)
    (hi : s.globals.iWall = some i) :
    XNODE.draw.wallBody map SCALE n s =
      .ok ⟨{ s.globals with
              p1 := some (map.robot2canvas SCALE w.pt1.x w.pt1.y),
              p2 := some (map.robot2canvas SCALE w.pt2.x w.pt2.y) },
           s.context ++ XWALL.commands map SCALE w⟩ := by
  simp [XNODE.draw.wallBody, readGlobal, toObject, hi, hw, XWALL_draw_run]

theorem XNODE_loopBound_spec (n : XNODE) (fuel : Nat) (h : n.loopBound < fuel) :
    ARROW.length < fuel ∧ n.points.length < fuel ∧ n.walls.length < fuel := by
  unfold XNODE.loopBound at h
  omega

/-- One `XNODE.draw` returns normally when given more fuel than its longest
loop, appends `XNODE.commands` to the context and leaves `iNode` as it was. -/
theorem XNODE_draw_run (M : MathImpl) (map : XMAP) (SCALE : JSNum) (n : XNODE) (fuel : Nat)
    (hfuel : n.loopBound < fuel) (s : DrawState) :
    ∃ g', XNODE.draw M map SCALE n fuel s =
        .ok ⟨g', s.context ++ XNODE.commands M map SCALE n⟩ ∧
      g'.iNode = s.globals.iNode := by
  obtain ⟨hfA, hfP, hfW⟩ := XNODE_loopBound_spec n fuel hfuel
  -- the loop over the points
  obtain ⟨g1, h1, hn1⟩ := forGlobal_run (fun g => g.iPoint)
    (fun g v => { g with iPoint := some v }) (fun g g' => g'.iNode = g.iNode) n.points
    (fun p => drawLine.commands (map.robot2canvas SCALE n.x n.y).x
        (map.robot2canvas SCALE n.x n.y).y (map.robot2canvas SCALE p.x p.y).x
        (map.robot2canvas SCALE p.x p.y).y "#CFCFFF" ++ XPOINT.commands map SCALE p)
    (XNODE.draw.pointBody map SCALE n (map.robot2canvas SCALE n.x n.y))
    (fun _ _ => rfl) (fun _ => rfl) (fun _ _ _ h h' => h'.trans h) (fun _ _ => rfl)
    (fun i p t hp hi =>
      ⟨_, XNODE_draw_pointBody_run map SCALE n _ i p t hp hi, hi, rfl⟩)
    fuel 0 ⟨{ s.globals with iPoint := some 0 }, s.context⟩ rfl (Nat.zero_le _) hfP
  -- the orientation arrow
  obtain ⟨g2, h2, hn2⟩ := drawArrow_run M (map.robot2canvas SCALE n.x n.y).x
    (map.robot2canvas SCALE n.x n.y).y (.fin 5) n.orientation "#FF000" fuel hfA
    ⟨g1, s.context ++ XNODE.commandsBeforeMarker map SCALE n ++ XNODE.marker map SCALE n⟩
  -- the loop over the walls
  obtain ⟨g3, h3, hn3⟩ := forGlobal_run (fun g => g.iWall)
    (fun g v => { g with iWall := some v }) (fun g g' => g'.iNode = g.iNode) n.walls
    (XWALL.commands map SCALE) (XNODE.draw.wallBody map SCALE n)
    (fun _ _ => rfl) (fun _ => rfl) (fun _ _ _ h h' => h'.trans h) (fun _ _ => rfl)
    (fun i w t hw hi =>
      ⟨_, XNODE_draw_wallBody_run map SCALE n i w t hw hi, hi, rfl⟩)
    fuel 0
    ⟨{ g2 with iWall := some 0 },
      s.context ++ XNODE.commandsBeforeMarker map SCALE n ++ XNODE.marker map SCALE n ++
        drawArrow.commands M (map.robot2canvas SCALE n.x n.y).x
          (map.robot2canvas SCALE n.x n.y).y (.fin 5) n.orientation "#FF000"⟩
    rfl (Nat.zero_le _) hfW
  refine ⟨g3, ?_, ?_⟩
  · unfold XNODE.draw
    simp only [List.drop_zero] at h1 h3
    simp only [h1, Except.ok_bind, drawCircle_run_filled, drawCircle_run_outline]
    have hctx : s.context ++ XNODE.commandsBeforeMarker map SCALE n ++
        XNODE.marker map SCALE n =
        s.context ++ List.flatMap n.points
          (fun p => drawLine.commands (map.robot2canvas SCALE n.x n.y).x
            (map.robot2canvas SCALE n.x n.y).y (map.robot2canvas SCALE p.x p.y).x
            (map.robot2canvas SCALE p.x p.y).y "#CFCFFF" ++ XPOINT.commands map SCALE p) ++
        [.fillStyle "#FFFFFF", .beginPath,
         .arc (map.robot2canvas SCALE n.x n.y).x (map.robot2canvas SCALE n.x n.y).y (.fin 20)
           (.fin 0) ((JSNum.fin 2).mul Math.PI), .fill,
         .strokeStyle "#FFFFFF", .beginPath,
         .arc (map.robot2canvas SCALE n.x n.y).x (map.robot2canvas SCALE n.x n.y).y (.fin 20)
           (.fin 0) ((JSNum.fin 2).mul Math.PI), .stroke] ++
        [.fillStyle "#FFFFFF", .beginPath,
         .arc (map.robot2canvas SCALE n.x n.y).x (map.robot2canvas SCALE n.x n.y).y (.fin 10)
           (.fin 0) ((JSNum.fin 2).mul Math.PI), .fill,
         .strokeStyle "#FF0000", .beginPath,
         .arc (map.robot2canvas SCALE n.x n.y).x (map.robot2canvas SCALE n.x n.y).y (.fin 10)
           (.fin 0) ((JSNum.fin 2).mul Math.PI), .stroke] ++
        [.strokeStyle "#FF0000", .beginPath,
         .arc (map.robot2canvas SCALE n.x n.y).x (map.robot2canvas SCALE n.x n.y).y (.fin 6)
           (.fin 0) ((JSNum.fin 2).mul Math.PI), .stroke] := by
      simp only [XNODE.commandsBeforeMarker, XNODE.marker, List.append_assoc, List.cons_append,
        List.nil_append]
    rw [← hctx, h2]
    simp only [Except.ok_bind]
    rw [h3]
    simp only [XNODE.commands, XNODE.commandsAfterMarker, List.append_assoc]
  · exact hn3.trans (hn2.trans hn1)

theorem XMAP_loopBound_spec (nodes : List XNODE) (b fuel : Nat)
    (h : (nodes.map XNODE.loopBound).foldr max b < fuel) :
    b < fuel ∧ ∀ n ∈ nodes, n.loopBound < fuel := by
  induction nodes with
  | nil => exact ⟨h, fun _ hn => absurd hn (List.not_mem_nil _)⟩
  | cons a as ih =>
    simp only [List.map_cons, List.foldr_cons] at h
    obtain ⟨hb, hall⟩ := ih (by omega)
    refine ⟨hb, fun n hn => ?_⟩
    rcases List.mem_cons.mp hn with rfl | hn
    · omega
    · exact hall n hn

/-- One `XMAP.draw` returns normally when given more fuel than its longest
loop and appends `XMAP.commands` to the context, whatever the globals hold. -/
theorem XMAP_draw_run (M : MathImpl) (SCALE : JSNum) (map : XMAP) (fuel : Nat)
    (hfuel : map.loopBound < fuel) (s : DrawState) :
    ∃ g', XMAP.draw M SCALE map fuel s = .ok ⟨g', s.context ++ XMAP.commands M SCALE map⟩ := by
  obtain ⟨hlen, hall⟩ := XMAP_loopBound_spec map.nodes map.nodes.length fuel hfuel
  obtain ⟨g1, h1, -⟩ := forGlobal_run (fun g => g.iNode)
    (fun g v => { g with iNode := some v }) (fun _ _ => True) map.nodes
    (XNODE.commands M map SCALE) (XMAP.draw.body M SCALE map fuel)
    (fun _ _ => rfl) (fun _ => trivial) (fun _ _ _ _ _ => trivial) (fun _ _ => trivial)
    (fun i n t hn hi => by
      obtain ⟨g', hrun, hnode⟩ := XNODE_draw_run M map SCALE n fuel
        (hall n (List.getElem?_mem hn)) t
      refine ⟨g', ?_, hnode.trans hi, trivial⟩
      simp [XMAP.draw.body, readGlobal, toObject, hi, hn, hrun])
    fuel 0 ⟨{ s.globals with iNode := some 0 }, s.context⟩ rfl (Nat.zero_le _) hlen
  exact ⟨g1, by simpa [XMAP.draw, XMAP.commands] using h1⟩

/-! ## The claims about drawing -/

/-- C8: for every scan point, `XPOINT.draw` sets fill and stroke colour #5050FF,
begins a path and emits one arc of radius 5 (from 0 to 2π) centred at the
point's `robot2canvas` position, followed by exactly one paint command: `fill`
(and no `stroke`) when `isValid` is true, `stroke` (and no `fill`) when it is
false; a point read from `valid="1"` has `isValid` true, one read from
`valid="0"` has it false. -/
theorem XPOINT_draw_fill_or_stroke (map : XMAP) (SCALE : JSNum) (this : XPOINT)
    (s : DrawState) :
    XPOINT.draw map SCALE this s =
      .ok ⟨s.globals, s.context ++
        [.fillStyle "#5050FF", .strokeStyle "#5050FF", .beginPath,
         .arc (map.robot2canvas SCALE this.x this.y).x (map.robot2canvas SCALE this.x this.y).y
           (.fin 5) (.fin 0) ((JSNum.fin 2).mul Math.PI),
         if this.isValid then .fill else .stroke]⟩ ∧
    (XPOINT.new (some (.mk "point" [("x", "30"), ("y", "40"), ("valid", "1")] []))).map
      XPOINT.isValid = .ok true ∧
    (XPOINT.new (some (.mk "point" [("x", "30"), ("y", "40"), ("valid", "0")] []))).map
      XPOINT.isValid = .ok false :=
  ⟨XPOINT_draw_run map SCALE this s, by decide, by decide⟩

/-- C7, as the code has it: for every station, `XNODE.draw` (given fuel for its
loops) emits, after the lines and scan points and before the arrow and the
walls, three concentric circles centred on the station's screen position, in
this order: radius 20 filled with #FFFFFF and stroked with #FFFFFF; radius 10
filled with #FFFFFF and stroked with #FF0000; radius 6 stroked with #FF0000 and
not filled. -/
theorem XNODE_draw_station_marker (M : MathImpl) (map : XMAP) (SCALE : JSNum) (this : XNODE)
    (fuel : Nat) (hfuel : this.loopBound < fuel) (s : DrawState) :
    ∃ g', XNODE.draw M map SCALE this fuel s =
      .ok ⟨g', s.context ++ XNODE.commandsBeforeMarker map SCALE this ++
        [.fillStyle "#FFFFFF", .beginPath,
         .arc (map.robot2canvas SCALE this.x this.y).x (map.robot2canvas SCALE this.x this.y).y
           (.fin 20) (.fin 0) ((JSNum.fin 2).mul Math.PI),
         .fill,
         .strokeStyle "#FFFFFF", .beginPath,
         .arc (map.robot2canvas SCALE this.x this.y).x (map.robot2canvas SCALE this.x this.y).y
           (.fin 20) (.fin 0) ((JSNum.fin 2).mul Math.PI),
         .stroke,
         .fillStyle "#FFFFFF", .beginPath,
         .arc (map.robot2canvas SCALE this.x this.y).x (map.robot2canvas SCALE this.x this.y).y
           (.fin 10) (.fin 0) ((JSNum.fin 2).mul Math.PI),
         .fill,
         .strokeStyle "#FF0000", .beginPath,
         .arc (map.robot2canvas SCALE this.x this.y).x (map.robot2canvas SCALE this.x this.y).y
           (.fin 10) (.fin 0) ((JSNum.fin 2).mul Math.PI),
         .stroke,
         .strokeStyle "#FF0000", .beginPath,
         .arc (map.robot2canvas SCALE this.x this.y).x (map.robot2canvas SCALE this.x this.y).y
           (.fin 6) (.fin 0) ((JSNum.fin 2).mul Math.PI),
         .stroke] ++
        XNODE.commandsAfterMarker M map SCALE this⟩ := by
  obtain ⟨g', hrun, -⟩ := XNODE_draw_run M map SCALE this fuel hfuel s
  exact ⟨g', by rw [hrun]; simp only [XNODE.commands, XNODE.marker, List.append_assoc]⟩

/-- Witness of C7 (amended): `bareStation` on `sampleMap`, drawn with fuel 5 from
unbound globals on an empty context. -/
theorem XNODE_draw_station_marker_witness :
    bareStation.loopBound < 5 ∧
    ∃ g', XNODE.draw MathImpl.taylor sampleMap (.fin 1) bareStation 5 ⟨Globals.unbound, []⟩ =
      .ok ⟨g', ([] : List Cmd) ++ XNODE.commandsBeforeMarker sampleMap (.fin 1) bareStation ++
        [.fillStyle "#FFFFFF", .beginPath,
         .arc (sampleMap.robot2canvas (.fin 1) bareStation.x bareStation.y).x
           (sampleMap.robot2canvas (.fin 1) bareStation.x bareStation.y).y
           (.fin 20) (.fin 0) ((JSNum.fin 2).mul Math.PI),
         .fill,
         .strokeStyle "#FFFFFF", .beginPath,
         .arc (sampleMap.robot2canvas (.fin 1) bareStation.x bareStation.y).x
           (sampleMap.robot2canvas (.fin 1) bareStation.x bareStation.y).y
           (.fin 20) (.fin 0) ((JSNum.fin 2).mul Math.PI),
         .stroke,
         .fillStyle "#FFFFFF", .beginPath,
         .arc (sampleMap.robot2canvas (.fin 1) bareStation.x bareStation.y).x
           (sampleMap.robot2canvas (.fin 1) bareStation.x bareStation.y).y
           (.fin 10) (.fin 0) ((JSNum.fin 2).mul Math.PI),
         .fill,
         .strokeStyle "#FF0000", .beginPath,
         .arc (sampleMap.robot2canvas (.fin 1) bareStation.x bareStation.y).x
           (sampleMap.robot2canvas (.fin 1) bareStation.x bareStation.y).y
           (.fin 10) (.fin 0) ((JSNum.fin 2).mul Math.PI),
         .stroke,
         .strokeStyle "#FF0000", .beginPath,
         .arc (sampleMap.robot2canvas (.fin 1) bareStation.x bareStation.y).x
           (sampleMap.robot2canvas (.fin 1) bareStation.x bareStation.y).y
           (.fin 6) (.fin 0) ((JSNum.fin 2).mul Math.PI),
         .stroke] ++
        XNODE.commandsAfterMarker MathImpl.taylor sampleMap (.fin 1) bareStation⟩ :=
  ⟨by decide,
    XNODE_draw_station_marker MathImpl.taylor sampleMap (.fin 1) bareStation 5 (by decide)
      ⟨Globals.unbound, []⟩⟩

/-- C7 fails as stated: drawing the station at robot (10, 20) (screen (10, 80))
with orientation 0 and neither points nor walls emits exactly the calls below;
the circle of radius 10 is filled with #FFFFFF, and no call ever selects #FF0000
as fill colour. -/
theorem XNODE_draw_mid_ring_fill_is_white :
    (XNODE.draw MathImpl.taylor sampleMap (.fin 1) bareStation 5 ⟨Globals.unbound, []⟩).map
        DrawState.context =
      .ok [.fillStyle "#FFFFFF", .beginPath,
           .arc (.fin 10) (.fin 80) (.fin 20) (.fin 0) ((JSNum.fin 2).mul Math.PI), .fill,
           .strokeStyle "#FFFFFF", .beginPath,
           .arc (.fin 10) (.fin 80) (.fin 20) (.fin 0) ((JSNum.fin 2).mul Math.PI), .stroke,
           .fillStyle "#FFFFFF", .beginPath,
           .arc (.fin 10) (.fin 80) (.fin 10) (.fin 0) ((JSNum.fin 2).mul Math.PI), .fill,
           .strokeStyle "#FF0000", .beginPath,
           .arc (.fin 10) (.fin 80) (.fin 10) (.fin 0) ((JSNum.fin 2).mul Math.PI), .stroke,
           .strokeStyle "#FF0000", .beginPath,
           .arc (.fin 10) (.fin 80) (.fin 6) (.fin 0) ((JSNum.fin 2).mul Math.PI), .stroke,
           .save, .strokeStyle "#FF000", .lineWidth (.fin 2), .strokeStyle "#FF000", .beginPath,
           .moveTo (.fin 10) (.fin 95), .lineTo (.fin 10) (.fin 60),
           .moveTo (.fin 5) (.fin 70), .lineTo (.fin 10) (.fin 60),
           .moveTo (.fin 15) (.fin 70), .lineTo (.fin 10) (.fin 60),
           .stroke, .restore] ∧
    (XNODE.draw MathImpl.taylor sampleMap (.fin 1) bareStation 5 ⟨Globals.unbound, []⟩).map
        (fun s => decide (Cmd.fillStyle "#FF0000" ∈ s.context)) = .ok false := by
  decide!

/-- C10: for every constructed map and a fixed SCALE, calling `XMAP.draw` twice
in succession (with fuel for its loops) returns normally both times and appends
the same sequence of calls, `XMAP.commands`, both times; the map is an argument
the drawing routines cannot change, and the calls emitted are the same from any
values of the implicit globals (`iNode`, `iPoint`, `iWall`, `k`, `pt`, `ipt`,
`p1`, `p2`, `sin`, `cos`, `rotArrow`), bound or unbound. -/
theorem XMAP_draw_twice_same_commands (M : MathImpl) (SCALE : JSNum) (map : XMAP) (fuel : Nat)
    (hfuel : map.loopBound < fuel) (g : Globals) (ctx : List Cmd) :
    (∃ g1 g2,
      XMAP.draw M SCALE map fuel ⟨g, ctx⟩ = .ok ⟨g1, ctx ++ XMAP.commands M SCALE map⟩ ∧
      XMAP.draw M SCALE map fuel ⟨g1, ctx ++ XMAP.commands M SCALE map⟩ =
        .ok ⟨g2, ctx ++ XMAP.commands M SCALE map ++ XMAP.commands M SCALE map⟩) ∧
    ∀ (g' : Globals) (ctx' : List Cmd), ∃ g'',
      XMAP.draw M SCALE map fuel ⟨g', ctx'⟩ = .ok ⟨g'', ctx' ++ XMAP.commands M SCALE map⟩ := by
  refine ⟨?_, fun g' ctx' => XMAP_draw_run M SCALE map fuel hfuel ⟨g', ctx'⟩⟩
  obtain ⟨g1, h1⟩ := XMAP_draw_run M SCALE map fuel hfuel ⟨g, ctx⟩
  obtain ⟨g2, h2⟩ := XMAP_draw_run M SCALE map fuel hfuel
    ⟨g1, ctx ++ XMAP.commands M SCALE map⟩
  exact ⟨g1, g2, h1, h2⟩

/-- Witness of C10: `sampleMap` drawn twice with fuel 5, starting from unbound
globals and an empty context. -/
theorem XMAP_draw_twice_same_commands_witness :
    sampleMap.loopBound < 5 ∧
    ((∃ g1 g2,
      XMAP.draw MathImpl.taylor (.fin 1) sampleMap 5 ⟨Globals.unbound, []⟩ =
        .ok ⟨g1, [] ++ XMAP.commands MathImpl.taylor (.fin 1) sampleMap⟩ ∧
      XMAP.draw MathImpl.taylor (.fin 1) sampleMap 5
          ⟨g1, [] ++ XMAP.commands MathImpl.taylor (.fin 1) sampleMap⟩ =
        .ok ⟨g2, [] ++ XMAP.commands MathImpl.taylor (.fin 1) sampleMap ++
          XMAP.commands MathImpl.taylor (.fin 1) sampleMap⟩) ∧
    ∀ (g' : Globals) (ctx' : List Cmd), ∃ g'',
      XMAP.draw MathImpl.taylor (.fin 1) sampleMap 5 ⟨g', ctx'⟩ =
        .ok ⟨g'', ctx' ++ XMAP.commands MathImpl.taylor (.fin 1) sampleMap⟩) :=
  ⟨by decide,
    XMAP_draw_twice_same_commands MathImpl.taylor (.fin 1) sampleMap 5 (by decide)
      Globals.unbound []⟩

end RobotExplorer
